import Mathlib

/-!
Shallow embedding of the EdiFy2 AI layer:
`src/services/aiService.ts` (provider adapter: error classifier, request
construction, response extraction, generation operations with fallbacks) and
`src/hooks/useAI.ts` (generation orchestrator: per-operation demo content,
error-state recording).

JavaScript string truthiness (the empty string is falsy) is modelled
explicitly wherever the source relies on it (`||` chains, `resourceContext ?`,
`!resourceContent`, `apiKey ?`).
-/

/-- The error taxonomy of `APIError.type` in aiService.ts. -/
inductive ErrType where
  | quota
  | auth
  | network
  | unknown
deriving DecidableEq

/-- The `APIError` shape of aiService.ts: kind, message, suggestion. -/
structure APIError where
  type : ErrType
  message : String
  suggestion : String
deriving DecidableEq

/-- Chat message roles of the adapter's `ChatMessage`. -/
inductive Role where
  | user
  | assistant
  | system
deriving DecidableEq

/-- The adapter's `ChatMessage`: role plus text content. -/
structure ChatMessage where
  role : Role
  content : String
deriving DecidableEq

/-- The three provider profiles of `AIService.getProvider`. -/
inductive Provider where
  | openai
  | anthropic
  | google
deriving DecidableEq

/-- `AIService.getProvider`: unknown identifiers fall back to the OpenAI
profile (`providers[type] || providers.openai`). -/
def getProvider (t : String) : Provider :=
  if t = "openai" then .openai
  else if t = "anthropic" then .anthropic
  else if t = "google" then .google
  else .openai

/-- Display name of each provider profile (the `name` field). -/
def Provider.displayName : Provider → String
  | .openai => "OpenAI"
  | .anthropic => "Anthropic"
  | .google => "Google"

/-- Default model identifier of each provider profile (the `model` field). -/
def Provider.modelName : Provider → String
  | .openai => "gpt-3.5-turbo"
  | .anthropic => "claude-3-sonnet-20240229"
  | .google => "gemini-pro"

/-- JavaScript `a || b` on an optional string `a`: `undefined` and the empty
string are falsy and fall through to the default. -/
def jsOrStr : Option String → String → String
  | some s, dflt => if s = "" then dflt else s
  | none, dflt => dflt

/-- JavaScript truthiness of an optional string: false for `undefined` and for
the empty string. -/
def jsStrTruthy : Option String → Bool
  | none => false
  | some s => decide (s ≠ "")

/-- The portion of a vendor error body read by `parseError`:
`errorData.error?.message` and `errorData.message`, each possibly absent. -/
structure ErrorData where
  errorMsg : Option String
  msg : Option String
deriving DecidableEq

/-- `errorData.error?.message || errorData.message || 'Unknown error'`
(aiService.ts line 50). -/
def effectiveErrorMessage (d : ErrorData) : String :=
  jsOrStr d.errorMsg (jsOrStr d.msg "Unknown error")

/-- Whether `pat` starts `l` (character-wise). -/
def listStartsWith : List Char → List Char → Bool
  | [], _ => true
  | _ :: _, [] => false
  | p :: ps, c :: cs => p = c && listStartsWith ps cs

/-- Whether `pat` occurs contiguously inside `l`. -/
def listIncludes (pat : List Char) : List Char → Bool
  | [] => listStartsWith pat []
  | c :: cs => listStartsWith pat (c :: cs) || listIncludes pat cs

/-- JavaScript `s.includes(pat)`: substring containment. -/
def strIncludes (s pat : String) : Bool :=
  listIncludes pat.data s.data

/-- `AIService.parseError`: the pure classifier from (HTTP status, vendor
error body) to a classified `APIError` (aiService.ts lines 48-87). -/
def parseError (status : Nat) (errorData : ErrorData) : APIError :=
  let errorMessage := effectiveErrorMessage errorData
  if status = 401 then
    ⟨.auth, "Invalid API key",
     "Please check your API key in Settings and make sure it\x27s correct."⟩
  else if status = 429 then
    if strIncludes errorMessage "quota" || strIncludes errorMessage "billing" then
      ⟨.quota, "API quota exceeded",
       "Please check your billing details or try a different API provider."⟩
    else
      ⟨.quota, "Rate limit exceeded", "Please wait a moment and try again."⟩
  else if status = 500 ∨ status = 502 ∨ status = 503 then
    ⟨.network, "Service temporarily unavailable", "Please try again in a few moments."⟩
  else
    ⟨.unknown, errorMessage,
     "Please try again or contact support if the issue persists."⟩

/-- The HTTP headers built by `AIService.chat` (aiService.ts lines 97-104):
Content-Type and an Authorization bearer token always; with the Anthropic
profile, the object spread additionally inserts `x-api-key` and
`anthropic-version`. -/
def chatRequestHeaders (p : Provider) (apiKey : String) : List (String × String) :=
  [("Content-Type", "application/json"), ("Authorization", "Bearer " ++ apiKey)] ++
    (if p.displayName = "Anthropic" then
      [("x-api-key", apiKey), ("anthropic-version", "2023-06-01")]
    else [])

/-- JavaScript `s.substring(0, n)`: the first `n` characters of `s` (all of
`s` when it is shorter). -/
def jsSubstringTo (s : String) (n : Nat) : String :=
  ⟨s.data.take n⟩

/-- The system instruction of `AIService.chat` (lines 91-93): if the grounding
content is truthy, embed its first 1000 characters in the instructional
template; otherwise the generic instruction. -/
def chatSystemMessage (resourceContext : Option String) : String :=
  if jsStrTruthy resourceContext then
    "You are an AI learning assistant. Help the user understand and learn from this content: "
      ++ jsSubstringTo (resourceContext.getD "") 1000 ++ "..."
  else
    "You are an AI learning assistant. Help the user with their questions."

/-- A message as serialized into a vendor request body: the role is already a
vendor-specific literal string. -/
structure SentMessage where
  role : String
  content : String
deriving DecidableEq

/-- One entry of the Google `contents` array: `parts` texts plus an optional
`role` (the leading system entry carries no role field). -/
structure GoogleContent where
  parts : List String
  role : Option String
deriving DecidableEq

/-- The vendor-specific request bodies produced by `buildRequestBody`. -/
inductive RequestBody where
  | openaiBody (model : String) (messages : List SentMessage)
      (maxTokens : Nat) (temperature : ℚ)
  | anthropicBody (model : String) (maxTokens : Nat) (system : String)
      (messages : List SentMessage)
  | googleBody (contents : List GoogleContent)
      (maxOutputTokens : Nat) (temperature : ℚ)
deriving DecidableEq

/-- The literal role strings of the adapter's roles. -/
def roleString : Role → String
  | .user => "user"
  | .assistant => "assistant"
  | .system => "system"

/-- `AIService.buildRequestBody` (aiService.ts lines 130-176): filters out
system-role messages, then builds the vendor shape; Anthropic carries the
system instruction as a top-level field, Google renames assistant to
`model` and prepends a role-less system part. -/
def buildRequestBody (p : Provider) (messages : List ChatMessage)
    (systemMessage : String) : RequestBody :=
  let userMessages := messages.filter (fun m => decide (m.role ≠ Role.system))
  match p with
  | .openai =>
      .openaiBody "gpt-3.5-turbo"
        (⟨"system", systemMessage⟩ ::
          userMessages.map (fun m => ⟨roleString m.role, m.content⟩))
        1000 (7 / 10)
  | .anthropic =>
      .anthropicBody "claude-3-sonnet-20240229" 1000 systemMessage
        (userMessages.map (fun m =>
          ⟨if m.role = Role.assistant then "assistant" else "user", m.content⟩))
  | .google =>
      .googleBody
        (⟨[systemMessage], none⟩ ::
          userMessages.map (fun m =>
            ⟨[m.content], some (if m.role = Role.assistant then "model" else "user")⟩))
        1000 (7 / 10)

/-- The value found at each vendor's response-text field path, `none` when the
path is absent (`choices[0].message.content` / `content[0].text` /
`candidates[0].content.parts[0].text`). -/
structure ResponseData where
  choicesContent : Option String
  contentText : Option String
  candidatesText : Option String
deriving DecidableEq

/-- The vendor response-text field selected by `extractResponse` for a
provider. -/
def responseTextField (p : Provider) (d : ResponseData) : Option String :=
  match p with
  | .openai => d.choicesContent
  | .anthropic => d.contentText
  | .google => d.candidatesText

/-- `AIService.extractResponse` (lines 178-192): the text at the vendor path,
or the literal fallback when the path is absent or falsy (`|| 'No response
received'`). -/
def extractResponse (p : Provider) (d : ResponseData) : String :=
  jsOrStr (responseTextField p d) "No response received"

/-- Outcome of the single `fetch` round trip performed by `AIService.chat`:
a 2xx response with parsed JSON, a 2xx response whose body fails JSON
parsing, a non-2xx response (whose error body may itself be unparsable), or
an outright transport failure. -/
inductive FetchOutcome where
  | ok (data : ResponseData)
  | okBadJson
  | httpError (status : Nat) (body : Option ErrorData)
  | networkFailure

/-- The `network`-classified error thrown by `AIService.chat`'s outer catch for
non-`APIError` failures (lines 122-126). -/
def connectionFailedError : APIError :=
  ⟨.network, "Connection failed", "Please check your internet connection and try again."⟩

/-- The headers and body sent by `AIService.chat` for a message history and
optional grounding content. -/
def AIService.chatRequest (p : Provider) (apiKey : String)
    (messages : List ChatMessage) (resourceContext : Option String) :
    List (String × String) × RequestBody :=
  (chatRequestHeaders p apiKey,
   buildRequestBody p messages (chatSystemMessage resourceContext))

/-- Result of `AIService.chat` (lines 89-128) as a function of the fetch
outcome: on 2xx, the extracted text; on non-2xx, the classified error from
`parseError` (an unparsable error body is replaced by
`{error: {message: 'Failed to parse error response'}}`); on transport or
body-JSON failure, the generic connection error. -/
def AIService.chat (p : Provider) (apiKey : String) (messages : List ChatMessage)
    (resourceContext : Option String) (outcome : FetchOutcome) :
    Except APIError String :=
  match outcome with
  | .ok data => .ok (extractResponse p data)
  | .okBadJson => .error connectionFailedError
  | .httpError status body =>
      .error (parseError status (body.getD ⟨some "Failed to parse error response", none⟩))
  | .networkFailure => .error connectionFailedError

/-- JSON values as produced by `JSON.parse`. Numeric literals are modelled as
integers; fractional and exponent forms are outside the fragment exercised
here and make parsing fail. -/
inductive Json where
  | null
  | bool (b : Bool)
  | num (n : Int)
  | str (s : String)
  | arr (elems : List Json)
  | obj (fields : List (String × Json))

/-- JSON whitespace characters. -/
def isJsonWs (c : Char) : Bool :=
  c = ' ' || c = '\t' || c = '\n' || c = '\r'

/-- Drop leading JSON whitespace. -/
def skipWs (l : List Char) : List Char :=
  l.dropWhile isJsonWs

/-- ASCII decimal digit test. -/
def isDigitChar (c : Char) : Bool :=
  '0' ≤ c && c ≤ '9'

/-- Hexadecimal digit value. -/
def hexVal (c : Char) : Option Nat :=
  if '0' ≤ c ∧ c ≤ '9' then some (c.toNat - 48)
  else if 'a' ≤ c ∧ c ≤ 'f' then some (c.toNat - 87)
  else if 'A' ≤ c ∧ c ≤ 'F' then some (c.toNat - 55)
  else none

/-- Parse the remainder of a JSON string literal (opening quote already
consumed), handling the standard escapes; returns the decoded characters and
the rest of the input. -/
def parseStringChars : Nat → List Char → Option (List Char × List Char)
  | 0, _ => none
  | _ + 1, [] => none
  | fuel + 1, c :: rest =>
    if c = '"' then some ([], rest)
    else if c = '\\' then
      match rest with
      | [] => none
      | e :: rest2 =>
        if e = '"' then
          (parseStringChars fuel rest2).map (fun p => ('"' :: p.1, p.2))
        else if e = '\\' then
          (parseStringChars fuel rest2).map (fun p => ('\\' :: p.1, p.2))
        else if e = '/' then
          (parseStringChars fuel rest2).map (fun p => ('/' :: p.1, p.2))
        else if e = 'b' then
          (parseStringChars fuel rest2).map (fun p => (Char.ofNat 8 :: p.1, p.2))
        else if e = 'f' then
          (parseStringChars fuel rest2).map (fun p => (Char.ofNat 12 :: p.1, p.2))
        else if e = 'n' then
          (parseStringChars fuel rest2).map (fun p => ('\n' :: p.1, p.2))
        else if e = 'r' then
          (parseStringChars fuel rest2).map (fun p => ('\r' :: p.1, p.2))
        else if e = 't' then
          (parseStringChars fuel rest2).map (fun p => ('\t' :: p.1, p.2))
        else if e = 'u' then
          match rest2 with
          | h1 :: h2 :: h3 :: h4 :: rest3 =>
            match hexVal h1, hexVal h2, hexVal h3, hexVal h4 with
            | some a, some b, some c2, some d =>
              (parseStringChars fuel rest3).map
                (fun p => (Char.ofNat (((a * 16 + b) * 16 + c2) * 16 + d) :: p.1, p.2))
            | _, _, _, _ => none
          | _ => none
        else none
    else (parseStringChars fuel rest).map (fun p => (c :: p.1, p.2))

/-- Parse a JSON integer literal (optional minus, digits, no leading zero);
fractional or exponent continuations are rejected. -/
def parseNumber (l : List Char) : Option (Json × List Char) :=
  let negRest : Bool × List Char :=
    match l with
    | '-' :: r => (true, r)
    | _ => (false, l)
  let ds := negRest.2.takeWhile isDigitChar
  let rest := negRest.2.dropWhile isDigitChar
  match ds with
  | [] => none
  | d :: ds' =>
    if d = '0' ∧ ds' ≠ [] then none
    else
      match rest with
      | '.' :: _ => none
      | 'e' :: _ => none
      | 'E' :: _ => none
      | _ =>
        let n : Nat := ds.foldl (fun acc c => acc * 10 + (c.toNat - 48)) 0
        some (Json.num (if negRest.1 then -(n : Int) else (n : Int)), rest)

mutual

/-- Parse one JSON value at the head of the input (leading whitespace already
skipped). -/
def parseValue : Nat → List Char → Option (Json × List Char)
  | 0, _ => none
  | fuel + 1, l =>
    match l with
    | [] => none
    | c :: rest =>
      if c = '"' then
        (parseStringChars (rest.length + 1) rest).map
          (fun p => (Json.str ⟨p.1⟩, p.2))
      else if c = '[' then
        match skipWs rest with
        | ']' :: rest2 => some (Json.arr [], rest2)
        | l2 => (parseElems fuel l2).map (fun p => (Json.arr p.1, p.2))
      else if c = '\x7b' then
        match skipWs rest with
        | '\x7d' :: rest2 => some (Json.obj [], rest2)
        | l2 => (parseFields fuel l2).map (fun p => (Json.obj p.1, p.2))
      else if c = 't' then
        match l with
        | 't' :: 'r' :: 'u' :: 'e' :: r => some (Json.bool true, r)
        | _ => none
      else if c = 'f' then
        match l with
        | 'f' :: 'a' :: 'l' :: 's' :: 'e' :: r => some (Json.bool false, r)
        | _ => none
      else if c = 'n' then
        match l with
        | 'n' :: 'u' :: 'l' :: 'l' :: r => some (Json.null, r)
        | _ => none
      else if c = '-' || isDigitChar c then parseNumber l
      else none

/-- Parse the comma-separated elements of a non-empty JSON array up to the
closing bracket. -/
def parseElems : Nat → List Char → Option (List Json × List Char)
  | 0, _ => none
  | fuel + 1, l =>
    match parseValue fuel l with
    | none => none
    | some (v, rest) =>
      match skipWs rest with
      | ',' :: r2 => (parseElems fuel (skipWs r2)).map (fun p => (v :: p.1, p.2))
      | ']' :: r2 => some ([v], r2)
      | _ => none

/-- Parse the fields of a non-empty JSON object up to the closing brace. -/
def parseFields : Nat → List Char → Option (List (String × Json) × List Char)
  | 0, _ => none
  | fuel + 1, l =>
    match l with
    | '"' :: rest =>
      match parseStringChars (rest.length + 1) rest with
      | none => none
      | some (key, r1) =>
        match skipWs r1 with
        | ':' :: r2 =>
          match parseValue fuel (skipWs r2) with
          | none => none
          | some (v, r3) =>
            match skipWs r3 with
            | ',' :: r4 =>
              (parseFields fuel (skipWs r4)).map
                (fun p => ((⟨key⟩, v) :: p.1, p.2))
            | '\x7d' :: r4 => some ([(⟨key⟩, v)], r4)
            | _ => none
        | _ => none
    | _ => none

end

/-- `JSON.parse`: one value, surrounded only by whitespace; anything else
fails. -/
def Json.parse (s : String) : Option Json :=
  match parseValue (s.length + 1) (skipWs s.data) with
  | some (v, rest) => if (skipWs rest).isEmpty then some v else none
  | none => none

/-- Index of the first occurrence of a character. -/
def firstIdxOf (c : Char) : List Char → Option Nat
  | [] => none
  | a :: as =>
    if a = c then some 0 else (firstIdxOf c as).map (· + 1)

/-- Index of the last occurrence of a character. -/
def lastIdxOf (c : Char) : List Char → Option Nat
  | [] => none
  | a :: as =>
    match lastIdxOf c as with
    | some k => some (k + 1)
    | none => if a = c then some 0 else none

/-- The JavaScript regex match `response.match(/\[[\s\S]*\]/)` on a character
list: the greedy match runs from the first `[` to the last `]`, provided the
latter comes after the former; otherwise there is no match. -/
def jsArrayMatchL (l : List Char) : Option (List Char) :=
  match firstIdxOf '[' l, lastIdxOf ']' l with
  | some i, some j => if i < j then some ((l.drop i).take (j + 1 - i)) else none
  | _, _ => none

/-- String form of `jsArrayMatchL`. -/
def jsArrayMatch (s : String) : Option String :=
  (jsArrayMatchL s.data).map (fun l => ⟨l⟩)

/-- The summary prompt of `AIService.generateSummary` (line 198). -/
def summaryPrompt (content : String) : String :=
  "Please provide a comprehensive summary of this content, highlighting the key points, main themes, and important takeaways:\n\n"
    ++ jsSubstringTo content 3000

/-- The flashcard prompt of `AIService.generateFlashcards` (line 209). -/
def flashcardPrompt (content : String) : String :=
  "Create 6 flashcards from this content. Return them as a JSON array with \x27question\x27 and \x27answer\x27 fields. Format: [\x7b\"question\": \"...\", \"answer\": \"...\"\x7d]\n\n"
    ++ jsSubstringTo content 3000

/-- The quiz prompt of `AIService.generateQuiz` (line 232). -/
def quizPrompt (content : String) : String :=
  "Create a 4-question multiple choice quiz from this content. Return as JSON array with \x27question\x27, \x27options\x27 (array of 4 choices), and \x27correct\x27 (index of correct answer). Format: [\x7b\"question\": \"...\", \"options\": [\"A\", \"B\", \"C\", \"D\"], \"correct\": 0\x7d]\n\n"
    ++ jsSubstringTo content 3000

/-- `AIService.createFallbackFlashcards` (lines 249-264): the fixed 3-entry
fallback deck. -/
def createFallbackFlashcards : List Json :=
  [Json.obj [("question", Json.str "What is the main topic of this content?"),
             ("answer", Json.str "The content focuses on learning and understanding key concepts from the uploaded material.")],
   Json.obj [("question", Json.str "What are the key learning objectives?"),
             ("answer", Json.str "To extract important information and create study materials for better comprehension.")],
   Json.obj [("question", Json.str "How can this content be applied?"),
             ("answer", Json.str "The concepts can be used to enhance understanding and retention of the subject matter.")]]

/-- `AIService.createFallbackQuiz` (lines 266-279): the fixed 2-entry fallback
quiz. -/
def createFallbackQuiz : List Json :=
  [Json.obj [("question", Json.str "What type of content are you studying?"),
             ("options", Json.arr [Json.str "Educational material", Json.str "Entertainment",
                                   Json.str "News article", Json.str "Technical documentation"]),
             ("correct", Json.num 0)],
   Json.obj [("question", Json.str "What is the purpose of creating study materials?"),
             ("options", Json.arr [Json.str "To pass time", Json.str "To enhance learning",
                                   Json.str "To create complexity", Json.str "To avoid studying"]),
             ("correct", Json.num 1)]]

/-- `AIService.generateSummary` (lines 194-203): a single-turn prompt over the
first 3000 characters; the chat result (success or classified error)
propagates unchanged. -/
def AIService.generateSummary (p : Provider) (apiKey content : String)
    (outcome : FetchOutcome) : Except APIError String :=
  AIService.chat p apiKey [⟨.user, summaryPrompt content⟩] none outcome

/-- `AIService.generateFlashcards` (lines 205-226): on a successful chat, match
the bracketed substring and `JSON.parse` it, returning the parsed array
unvalidated; on no match, parse failure, or chat failure, the fixed fallback
deck. Never raises. -/
def AIService.generateFlashcards (p : Provider) (apiKey content : String)
    (outcome : FetchOutcome) : List Json :=
  match AIService.chat p apiKey [⟨.user, flashcardPrompt content⟩] none outcome with
  | .error _ => createFallbackFlashcards
  | .ok response =>
    match jsArrayMatch response with
    | some sub =>
      match Json.parse sub with
      | some (Json.arr xs) => xs
      | _ => createFallbackFlashcards
    | none => createFallbackFlashcards

/-- `AIService.generateQuiz` (lines 228-247): same extraction pattern as
flashcards, with the fixed fallback quiz. Never raises. -/
def AIService.generateQuiz (p : Provider) (apiKey content : String)
    (outcome : FetchOutcome) : List Json :=
  match AIService.chat p apiKey [⟨.user, quizPrompt content⟩] none outcome with
  | .error _ => createFallbackQuiz
  | .ok response =>
    match jsArrayMatch response with
    | some sub =>
      match Json.parse sub with
      | some (Json.arr xs) => xs
      | _ => createFallbackQuiz
    | none => createFallbackQuiz

/-- The per-instance orchestrator state of `useAI`: the busy flag and the most
recent classified error. -/
structure OrchestratorState where
  loading : Bool
  error : Option APIError
deriving DecidableEq

/-- One hook operation call: its returned value, the orchestrator state it
leaves behind, and whether a provider HTTP call was attempted. -/
structure HookCall (α : Type) where
  result : α
  state : OrchestratorState
  called : Bool

/-- Roles of the hook-level chat history (`'user' | 'ai'`). -/
inductive HookRole where
  | user
  | ai
deriving DecidableEq

/-- A hook-level chat history entry. -/
structure HookChatMessage where
  role : HookRole
  message : String

/-- The `auth` error thrown by the hook when no AI service is configured
(useAI.ts lines 44-50 and 75-81). -/
def notConfiguredError : APIError :=
  ⟨.auth, "AI service not configured", "Please check your API key in Settings."⟩

/-- The demo summary returned when configured but no content is present
(useAI.ts line 84). -/
def demoSummaryText : String :=
  "This is a demo summary. Upload real content and configure your API key to generate AI-powered summaries of your videos and documents."

/-- The demo flashcards returned when no API key is configured
(useAI.ts lines 106-109). -/
def demoFlashcardsNoKey : List Json :=
  [Json.obj [("question", Json.str "Demo Question 1"),
             ("answer", Json.str "Configure your API key to generate real flashcards")],
   Json.obj [("question", Json.str "Demo Question 2"),
             ("answer", Json.str "Upload content and set up AI to create personalized study materials")]]

/-- The demo flashcards returned when configured but no content is present
(useAI.ts lines 112-117). -/
def demoFlashcardsNoContent : List Json :=
  [Json.obj [("question", Json.str "What is EdiFy?"),
             ("answer", Json.str "An AI-powered learning platform for creating study materials")],
   Json.obj [("question", Json.str "How does it work?"),
             ("answer", Json.str "Upload content and let AI generate summaries, flashcards, and quizzes")]]

/-- The demo quiz returned when no API key is configured
(useAI.ts lines 146-154). -/
def demoQuizNoKey : List Json :=
  [Json.obj [("question", Json.str "What do you need to generate real quizzes?"),
             ("options", Json.arr [Json.str "A valid API key", Json.str "Internet connection",
                                   Json.str "Uploaded content", Json.str "All of the above"]),
             ("correct", Json.num 3)]]

/-- The demo quiz returned when configured but no content is present
(useAI.ts lines 156-164). -/
def demoQuizNoContent : List Json :=
  [Json.obj [("question", Json.str "What is the main purpose of EdiFy?"),
             ("options", Json.arr [Json.str "Entertainment", Json.str "AI-powered learning",
                                   Json.str "File storage", Json.str "Video streaming"]),
             ("correct", Json.num 1)]]

/-- The fallback summary string of `useAI.generateSummary`'s catch branch
(useAI.ts line 98). -/
def summaryFallbackText (e : APIError) : String :=
  "Unable to generate AI summary due to: " ++ e.message ++ ". " ++ e.suggestion
    ++ "\n\nFallback Summary:\nThis content contains educational material that can be used for learning purposes. Key concepts include understanding the main topics, extracting important information, and creating study materials for better comprehension."

/-- `useAI.sendChatMessage` (useAI.ts lines 40-72): with no API key, throws the
`auth` not-configured error without any network call; otherwise maps the hook
history to adapter roles, appends the new user message, delegates to
`AIService.chat` grounded with the resource content, and records the
classified error in the orchestrator state on failure. -/
def useAI.sendChatMessage (apiKey providerType : String)
    (resourceContent : Option String) (message : String)
    (chatHistory : List HookChatMessage) (st : OrchestratorState)
    (outcome : FetchOutcome) : HookCall (Except APIError String) :=
  if apiKey = "" then ⟨.error notConfiguredError, st, false⟩
  else
    let messages := chatHistory.map (fun c =>
      (⟨if c.role = HookRole.ai then .assistant else .user, c.message⟩ : ChatMessage))
      ++ [⟨.user, message⟩]
    match AIService.chat (getProvider providerType) apiKey messages
        resourceContent outcome with
    | .ok s => ⟨.ok s, ⟨false, none⟩, true⟩
    | .error e => ⟨.error e, ⟨false, some e⟩, true⟩

/-- `useAI.generateSummary` (useAI.ts lines 74-102): with no API key, throws
the `auth` not-configured error; with falsy content, returns the demo summary
without any call; otherwise delegates to the service and, on a classified
failure, records the error and returns the fallback summary string instead of
throwing. -/
def useAI.generateSummary (apiKey providerType : String)
    (resourceContent : Option String) (st : OrchestratorState)
    (outcome : FetchOutcome) : HookCall (Except APIError String) :=
  if apiKey = "" then ⟨.error notConfiguredError, st, false⟩
  else if ¬jsStrTruthy resourceContent then ⟨.ok demoSummaryText, st, false⟩
  else
    match AIService.generateSummary (getProvider providerType) apiKey
        (resourceContent.getD "") outcome with
    | .ok s => ⟨.ok s, ⟨false, none⟩, true⟩
    | .error e => ⟨.ok (summaryFallbackText e), ⟨false, some e⟩, true⟩

/-- `useAI.generateFlashcards` (useAI.ts lines 104-143): with no API key or
falsy content, fixed demo decks without any call (the orchestrator state is
left untouched); otherwise delegates to `AIService.generateFlashcards`, which
never throws, so the hook's catch branch is unreachable and the recorded error
is always cleared to null. -/
def useAI.generateFlashcards (apiKey providerType : String)
    (resourceContent : Option String) (st : OrchestratorState)
    (outcome : FetchOutcome) : HookCall (List Json) :=
  if apiKey = "" then ⟨demoFlashcardsNoKey, st, false⟩
  else if ¬jsStrTruthy resourceContent then ⟨demoFlashcardsNoContent, st, false⟩
  else
    ⟨AIService.generateFlashcards (getProvider providerType) apiKey
        (resourceContent.getD "") outcome,
     ⟨false, none⟩, true⟩

/-- `useAI.generateQuiz` (useAI.ts lines 145-192): same structure as
`useAI.generateFlashcards` with the quiz demo decks and service. -/
def useAI.generateQuiz (apiKey providerType : String)
    (resourceContent : Option String) (st : OrchestratorState)
    (outcome : FetchOutcome) : HookCall (List Json) :=
  if apiKey = "" then ⟨demoQuizNoKey, st, false⟩
  else if ¬jsStrTruthy resourceContent then ⟨demoQuizNoContent, st, false⟩
  else
    ⟨AIService.generateQuiz (getProvider providerType) apiKey
        (resourceContent.getD "") outcome,
     ⟨false, none⟩, true⟩

/-- Field lookup on a JSON object. -/
def jsonField (j : Json) (key : String) : Option Json :=
  match j with
  | .obj fields => fields.lookup key
  | _ => none

/-- Whether an optional JSON value is a string. -/
def isStringJson : Option Json → Bool
  | some (.str _) => true
  | _ => false

/-- Flashcard element shape: string `question` and `answer` fields. -/
def isFlashcardJson (j : Json) : Bool :=
  isStringJson (jsonField j "question") && isStringJson (jsonField j "answer")

/-- Quiz options shape: an array of exactly 4 strings. -/
def isOptionsJson : Option Json → Bool
  | some (.arr xs) =>
    decide (xs.length = 4) && xs.all (fun x =>
      match x with
      | .str _ => true
      | _ => false)
  | _ => false

/-- Quiz correct-index shape: an integer in range 0..3. -/
def isCorrectIdxJson : Option Json → Bool
  | some (.num n) => decide (0 ≤ n) && decide (n < 4)
  | _ => false

/-- Quiz element shape: a string question, exactly 4 string options, and a
correct index in range 0..3. -/
def isQuizJson (j : Json) : Bool :=
  isStringJson (jsonField j "question") && isOptionsJson (jsonField j "options")
    && isCorrectIdxJson (jsonField j "correct")

/-! Helper lemmas about the first/last-index computations underlying the
greedy bracket match. -/

theorem firstIdxOf_append_of_not_mem (c : Char) (pre l : List Char) (h : c ∉ pre) :
    firstIdxOf c (pre ++ l) = (firstIdxOf c l).map (· + pre.length) := by
  induction pre with
  | nil => cases h' : firstIdxOf c l <;> simp [h']
  | cons a as ih =>
    have ha : ¬(a = c) := fun e => h (by simp [e])
    have h2 : c ∉ as := fun e => h (List.mem_cons_of_mem _ e)
    have hstep : firstIdxOf c ((a :: as) ++ l)
        = if a = c then some 0 else (firstIdxOf c (as ++ l)).map (· + 1) := rfl
    rw [hstep, if_neg ha, ih h2]
    cases firstIdxOf c l with
    | none => rfl
    | some k => simp; omega

theorem lastIdxOf_eq_none (c : Char) (l : List Char) (h : c ∉ l) :
    lastIdxOf c l = none := by
  induction l with
  | nil => rfl
  | cons a as ih =>
    have ha : ¬(a = c) := fun e => h (by simp [e])
    have h2 : c ∉ as := fun e => h (List.mem_cons_of_mem _ e)
    simp [lastIdxOf, ih h2, ha]

theorem lastIdxOf_append (c : Char) (xs ys : List Char) :
    lastIdxOf c (xs ++ ys) =
      match lastIdxOf c ys with
      | some k => some (xs.length + k)
      | none => lastIdxOf c xs := by
  induction xs with
  | nil => cases h' : lastIdxOf c ys <;> simp [h', lastIdxOf]
  | cons a as ih =>
    have hstep : lastIdxOf c ((a :: as) ++ ys)
        = match lastIdxOf c (as ++ ys) with
          | some k => some (k + 1)
          | none => if a = c then some 0 else none := rfl
    rw [hstep, ih]
    cases h' : lastIdxOf c ys with
    | none => rfl
    | some k => simp; omega

theorem firstIdxOf_get (c : Char) (l : List Char) (i : Nat)
    (h : firstIdxOf c l = some i) : l.get? i = some c := by
  induction l generalizing i with
  | nil => simp [firstIdxOf] at h
  | cons a as ih =>
    by_cases ha : a = c
    · simp [firstIdxOf, ha] at h
      subst h
      simp [ha]
    · simp [firstIdxOf, ha] at h
      rcases h with ⟨k, hk, rfl⟩
      simpa using ih k hk

theorem lastIdxOf_get (c : Char) (l : List Char) (j : Nat)
    (h : lastIdxOf c l = some j) : l.get? j = some c := by
  induction l generalizing j with
  | nil => simp [lastIdxOf] at h
  | cons a as ih =>
    rw [lastIdxOf] at h
    cases h' : lastIdxOf c as with
    | some k =>
      rw [h'] at h
      simp at h
      subst h
      simpa using ih k h'
    | none =>
      rw [h'] at h
      by_cases ha : a = c
      · simp [ha] at h
        subst h
        simp [ha]
      · simp [ha] at h

/-- The greedy match on a string decomposed as prose, a bracketed segment, and
trailing prose returns exactly the segment from the first `[` to the last
`]`. -/
theorem jsArrayMatchL_decomp (pre inner post : List Char)
    (hpre : '[' ∉ pre) (hpost : ']' ∉ post) :
    jsArrayMatchL (pre ++ ('[' :: (inner ++ (']' :: post))))
      = some ('[' :: (inner ++ [']'])) := by
  have hfirst : firstIdxOf '[' (pre ++ ('[' :: (inner ++ (']' :: post))))
      = some pre.length := by
    rw [firstIdxOf_append_of_not_mem _ _ _ hpre]
    have : firstIdxOf '[' ('[' :: (inner ++ (']' :: post))) = some 0 := by
      simp [firstIdxOf]
    rw [this]
    simp
  have hlast : lastIdxOf ']' (pre ++ ('[' :: (inner ++ (']' :: post))))
      = some (pre.length + (inner.length + 1)) := by
    have he : pre ++ ('[' :: (inner ++ (']' :: post)))
        = ((pre ++ ('[' :: inner)) ++ [']']) ++ post := by simp
    rw [he, lastIdxOf_append, lastIdxOf_eq_none _ _ hpost, lastIdxOf_append]
    have h1 : lastIdxOf ']' [']'] = some 0 := rfl
    rw [h1]
    simp
  unfold jsArrayMatchL
  rw [hfirst, hlast]
  have hlt : pre.length < pre.length + (inner.length + 1) := by omega
  show (if pre.length < pre.length + (inner.length + 1) then
      some (((pre ++ ('[' :: (inner ++ (']' :: post)))).drop pre.length).take
        (pre.length + (inner.length + 1) + 1 - pre.length))
    else none) = some ('[' :: (inner ++ [']']))
  rw [if_pos hlt]
  have hdrop : (pre ++ ('[' :: (inner ++ (']' :: post)))).drop pre.length
      = '[' :: (inner ++ (']' :: post)) := List.drop_left _ _
  rw [hdrop]
  have harith : pre.length + (inner.length + 1) + 1 - pre.length = inner.length + 2 := by
    omega
  rw [harith]
  have he2 : '[' :: (inner ++ (']' :: post)) = ('[' :: (inner ++ [']'])) ++ post := by
    simp
  rw [he2]
  have hlen : ('[' :: (inner ++ [']'])).length = inner.length + 2 := by simp
  rw [← hlen, List.take_left]

/-- A string with no `[` strictly before a later `]` has no greedy match. -/
theorem jsArrayMatchL_none (l : List Char)
    (h : ∀ i j, i < j → ¬(l.get? i = some '[' ∧ l.get? j = some ']')) :
    jsArrayMatchL l = none := by
  unfold jsArrayMatchL
  cases hf : firstIdxOf '[' l with
  | none => rfl
  | some i =>
    cases hl : lastIdxOf ']' l with
    | none => rfl
    | some j =>
      show (if i < j then some ((l.drop i).take (j + 1 - i)) else none) = none
      by_cases hij : i < j
      · exact absurd ⟨firstIdxOf_get _ _ _ hf, lastIdxOf_get _ _ _ hl⟩ (h i j hij)
      · rw [if_neg hij]

/-- Claim C1, counterexample: the claim says the returned sequence is always
non-empty and well-shaped, but a successful provider response whose bracketed
substring parses to `[]` makes `generateFlashcards` return the empty sequence,
and a response `[1]` makes `generateQuiz` return a single element without the
quiz shape: the parsed array is returned with no validation. -/
theorem counterexample_C1 :
    AIService.generateFlashcards .openai "sk-test" "content" (.ok ⟨some "[]", none, none⟩)
      = [] ∧
    AIService.generateQuiz .openai "sk-test" "content" (.ok ⟨some "[1]", none, none⟩)
      = [Json.num 1] ∧
    isQuizJson (Json.num 1) = false := by
  exact ⟨rfl, rfl, rfl⟩

/-- Claim C1 as amended: for every input content and every fetch outcome,
`generateFlashcards` and `generateQuiz` return normally (they are total);
either the result is the fixed fallback deck — which is non-empty and whose
every element has the operation's shape — or the provider call succeeded and
its bracketed substring parsed as a JSON array, in which case that array is
returned as-is, with no shape validation (it may be empty or ill-shaped). -/
theorem claim_C1_amended (p : Provider) (k c : String) (o : FetchOutcome) :
    ((AIService.generateFlashcards p k c o = createFallbackFlashcards ∧
        createFallbackFlashcards ≠ [] ∧
        createFallbackFlashcards.all isFlashcardJson = true) ∨
      (∃ s sub xs, AIService.chat p k [⟨.user, flashcardPrompt c⟩] none o = .ok s ∧
        jsArrayMatch s = some sub ∧ Json.parse sub = some (Json.arr xs) ∧
        AIService.generateFlashcards p k c o = xs)) ∧
    ((AIService.generateQuiz p k c o = createFallbackQuiz ∧
        createFallbackQuiz ≠ [] ∧
        createFallbackQuiz.all isQuizJson = true) ∨
      (∃ s sub xs, AIService.chat p k [⟨.user, quizPrompt c⟩] none o = .ok s ∧
        jsArrayMatch s = some sub ∧ Json.parse sub = some (Json.arr xs) ∧
        AIService.generateQuiz p k c o = xs)) := by
  constructor
  · cases hchat : AIService.chat p k [⟨.user, flashcardPrompt c⟩] none o with
    | error e =>
      left
      exact ⟨by simp [AIService.generateFlashcards, hchat],
        by simp [createFallbackFlashcards], rfl⟩
    | ok s =>
      cases hm : jsArrayMatch s with
      | none =>
        left
        exact ⟨by simp [AIService.generateFlashcards, hchat, hm],
          by simp [createFallbackFlashcards], rfl⟩
      | some sub =>
        cases hp : Json.parse sub with
        | none =>
          left
          exact ⟨by simp [AIService.generateFlashcards, hchat, hm, hp],
            by simp [createFallbackFlashcards], rfl⟩
        | some v =>
          cases v with
          | arr xs =>
            right
            exact ⟨s, sub, xs, rfl, hm, hp,
              by simp [AIService.generateFlashcards, hchat, hm, hp]⟩
          | null =>
            left
            exact ⟨by simp [AIService.generateFlashcards, hchat, hm, hp],
              by simp [createFallbackFlashcards], rfl⟩
          | bool b =>
            left
            exact ⟨by simp [AIService.generateFlashcards, hchat, hm, hp],
              by simp [createFallbackFlashcards], rfl⟩
          | num n =>
            left
            exact ⟨by simp [AIService.generateFlashcards, hchat, hm, hp],
              by simp [createFallbackFlashcards], rfl⟩
          | str s2 =>
            left
            exact ⟨by simp [AIService.generateFlashcards, hchat, hm, hp],
              by simp [createFallbackFlashcards], rfl⟩
          | obj fs =>
            left
            exact ⟨by simp [AIService.generateFlashcards, hchat, hm, hp],
              by simp [createFallbackFlashcards], rfl⟩
  · cases hchat : AIService.chat p k [⟨.user, quizPrompt c⟩] none o with
    | error e =>
      left
      exact ⟨by simp [AIService.generateQuiz, hchat],
        by simp [createFallbackQuiz], rfl⟩
    | ok s =>
      cases hm : jsArrayMatch s with
      | none =>
        left
        exact ⟨by simp [AIService.generateQuiz, hchat, hm],
          by simp [createFallbackQuiz], rfl⟩
      | some sub =>
        cases hp : Json.parse sub with
        | none =>
          left
          exact ⟨by simp [AIService.generateQuiz, hchat, hm, hp],
            by simp [createFallbackQuiz], rfl⟩
        | some v =>
          cases v with
          | arr xs =>
            right
            exact ⟨s, sub, xs, rfl, hm, hp,
              by simp [AIService.generateQuiz, hchat, hm, hp]⟩
          | null =>
            left
            exact ⟨by simp [AIService.generateQuiz, hchat, hm, hp],
              by simp [createFallbackQuiz], rfl⟩
          | bool b =>
            left
            exact ⟨by simp [AIService.generateQuiz, hchat, hm, hp],
              by simp [createFallbackQuiz], rfl⟩
          | num n =>
            left
            exact ⟨by simp [AIService.generateQuiz, hchat, hm, hp],
              by simp [createFallbackQuiz], rfl⟩
          | str s2 =>
            left
            exact ⟨by simp [AIService.generateQuiz, hchat, hm, hp],
              by simp [createFallbackQuiz], rfl⟩
          | obj fs =>
            left
            exact ⟨by simp [AIService.generateQuiz, hchat, hm, hp],
              by simp [createFallbackQuiz], rfl⟩

/-- Claim C1, witness: a transport failure produces the fixed fallback deck,
which satisfies the flashcard shape check. -/
theorem claim_C1_amended_witness :
    AIService.generateFlashcards .openai "sk-w" "c" .networkFailure
      = createFallbackFlashcards ∧
    createFallbackFlashcards.all isFlashcardJson = true := by
  have h := (claim_C1_amended .openai "sk-w" "c" .networkFailure).1
  rcases h with ⟨h1, _, h3⟩ | ⟨s, sub, xs, hchat, _⟩
  · exact ⟨h1, h3⟩
  · simp [AIService.chat] at hchat

/-- Claim C2, counterexample: with no API key, `useAI.generateSummary` does not
return the fixed demo summary — it raises the `auth` not-configured error
(useAI.ts lines 75-81 throw before the demo-content check). -/
theorem counterexample_C2 :
    (useAI.generateSummary "" "openai" (some "some uploaded content")
        ⟨false, none⟩ .networkFailure).result = .error notConfiguredError ∧
    (useAI.generateSummary "" "openai" (some "some uploaded content")
        ⟨false, none⟩ .networkFailure).result ≠ .ok demoSummaryText := by
  constructor
  · rfl
  · intro h
    cases h

/-- Claim C2 as amended: with no credentials, no operation attempts a network
call; `generateFlashcards` and `generateQuiz` return fixed demo content
immediately, while `generateSummary` and `sendChatMessage` each raise
synchronously the `auth`-classified error with message
"AI service not configured". -/
theorem claim_C2_amended (providerType : String) (rc : Option String) (msg : String)
    (history : List HookChatMessage) (st : OrchestratorState) (o : FetchOutcome) :
    (useAI.generateFlashcards "" providerType rc st o).result = demoFlashcardsNoKey ∧
    (useAI.generateFlashcards "" providerType rc st o).called = false ∧
    (useAI.generateQuiz "" providerType rc st o).result = demoQuizNoKey ∧
    (useAI.generateQuiz "" providerType rc st o).called = false ∧
    (useAI.generateSummary "" providerType rc st o).result = .error notConfiguredError ∧
    (useAI.generateSummary "" providerType rc st o).called = false ∧
    (useAI.sendChatMessage "" providerType rc msg history st o).result
      = .error notConfiguredError ∧
    (useAI.sendChatMessage "" providerType rc msg history st o).called = false := by
  refine ⟨?_, ?_, ?_, ?_, ?_, ?_, ?_, ?_⟩ <;>
    simp [useAI.generateFlashcards, useAI.generateQuiz, useAI.generateSummary,
      useAI.sendChatMessage]

/-- Claim C2, witness: the unconfigured chat raises the `auth` error. -/
theorem claim_C2_amended_witness :
    (useAI.sendChatMessage "" "openai" none "hi" [] ⟨false, none⟩ .networkFailure).result
      = .error notConfiguredError :=
  (claim_C2_amended "openai" none "hi" [] ⟨false, none⟩ .networkFailure).2.2.2.2.2.2.1

/-- Claim C3: `parseError` is a pure function of (status, body): 401 yields
`auth` "Invalid API key"; 429 yields `quota`, with the billing suggestion
exactly when the effective vendor message contains "quota" or "billing" and
the rate-limit (wait-and-retry) suggestion "Please wait a moment and try
again." otherwise; 500/502/503 yield `network` "Service temporarily
unavailable"; every other
status yields `unknown` with the message copied from the vendor body when a
non-empty one is present and "Unknown error" otherwise. -/
theorem claim_C3 (status : Nat) (d : ErrorData) :
    (status = 401 →
      parseError status d = ⟨.auth, "Invalid API key",
        "Please check your API key in Settings and make sure it\x27s correct."⟩) ∧
    (status = 429 →
      (parseError status d).type = .quota ∧
      ((strIncludes (effectiveErrorMessage d) "quota" = true ∨
        strIncludes (effectiveErrorMessage d) "billing" = true) →
        parseError status d = ⟨.quota, "API quota exceeded",
          "Please check your billing details or try a different API provider."⟩) ∧
      (¬(strIncludes (effectiveErrorMessage d) "quota" = true ∨
         strIncludes (effectiveErrorMessage d) "billing" = true) →
        parseError status d = ⟨.quota, "Rate limit exceeded",
          "Please wait a moment and try again."⟩)) ∧
    (status = 500 ∨ status = 502 ∨ status = 503 →
      parseError status d = ⟨.network, "Service temporarily unavailable",
        "Please try again in a few moments."⟩) ∧
    (status ≠ 401 → status ≠ 429 → ¬(status = 500 ∨ status = 502 ∨ status = 503) →
      (parseError status d).type = .unknown ∧
      (parseError status d).message = effectiveErrorMessage d ∧
      (d.errorMsg = none → d.msg = none → (parseError status d).message = "Unknown error") ∧
      (∀ m, d.errorMsg = some m → m ≠ "" → (parseError status d).message = m)) := by
  refine ⟨?_, ?_, ?_, ?_⟩
  · rintro rfl
    simp [parseError]
  · rintro rfl
    by_cases hq : (strIncludes (effectiveErrorMessage d) "quota"
        || strIncludes (effectiveErrorMessage d) "billing") = true
    · have he : parseError 429 d = ⟨.quota, "API quota exceeded",
          "Please check your billing details or try a different API provider."⟩ := by
        simp [parseError, hq]
      rw [he]
      refine ⟨rfl, fun _ => rfl, ?_⟩
      intro hn
      exact absurd (by simpa [Bool.or_eq_true] using hq) hn
    · have he : parseError 429 d = ⟨.quota, "Rate limit exceeded",
          "Please wait a moment and try again."⟩ := by
        simp [parseError, hq]
      rw [he]
      rw [Bool.or_eq_true] at hq
      refine ⟨rfl, ?_, fun _ => rfl⟩
      intro hor
      exact absurd hor hq
  · rintro (rfl | rfl | rfl) <;> simp [parseError]
  · intro h1 h2 h3
    have he : parseError status d = ⟨.unknown, effectiveErrorMessage d,
        "Please try again or contact support if the issue persists."⟩ := by
      simp [parseError, h1, h2, h3]
    rw [he]
    refine ⟨rfl, rfl, ?_, ?_⟩
    · intro ha hb
      simp [effectiveErrorMessage, ha, hb, jsOrStr]
    · intro m hm hne
      simp [effectiveErrorMessage, hm, jsOrStr, hne]

/-- Claim C3, witness: the classifier evaluated at 429 with a quota body, at
429 with a plain rate-limit body, at 401, and at 404 with an empty body. -/
theorem claim_C3_witness :
    parseError 429 ⟨some "You exceeded your current quota, please check billing", none⟩
      = ⟨.quota, "API quota exceeded",
        "Please check your billing details or try a different API provider."⟩ ∧
    parseError 429 ⟨some "Too many requests", none⟩
      = ⟨.quota, "Rate limit exceeded", "Please wait a moment and try again."⟩ ∧
    parseError 401 ⟨none, none⟩ = ⟨.auth, "Invalid API key",
      "Please check your API key in Settings and make sure it\x27s correct."⟩ ∧
    (parseError 404 ⟨none, none⟩).message = "Unknown error" := by
  refine ⟨?_, ?_, ?_, ?_⟩
  · exact ((claim_C3 429 _).2.1 rfl).2.1 (Or.inl (by decide))
  · exact ((claim_C3 429 _).2.1 rfl).2.2 (by decide)
  · exact (claim_C3 401 _).1 rfl
  · exact ((claim_C3 404 _).2.2.2 (by decide) (by decide) (by decide)).2.2.1 rfl rfl

/-- Claim C4, counterexample: a failed provider call (transport failure) on a
configured orchestrator yields the fixed fallback deck but leaves the recorded
error state null — the claim says a failed call populates it. The service
layer absorbs the failure before the hook's error recording. -/
theorem counterexample_C4 :
    (useAI.generateFlashcards "sk-test" "openai" (some "uploaded content")
        ⟨false, none⟩ .networkFailure).result = createFallbackFlashcards ∧
    (useAI.generateFlashcards "sk-test" "openai" (some "uploaded content")
        ⟨false, none⟩ .networkFailure).state.error = none := by
  exact ⟨rfl, rfl⟩

/-- Claim C4 as amended: for `generateFlashcards` and `generateQuiz`, a failed
provider call and a parse failure of a successful call (no bracketed
substring, or a matched substring on which `JSON.parse` fails) all yield the
same fixed fallback deck, and none of them populates the orchestrator's
recorded error state: the error is reset to null at the start of the operation and remains
null whatever the outcome, because `AIService.generateFlashcards` and
`AIService.generateQuiz` absorb every failure internally, so the hook's
catch/record branch is unreachable. -/
theorem claim_C4_amended (k pt c : String) (hk : k ≠ "") (hc : c ≠ "")
    (st : OrchestratorState) (o : FetchOutcome) :
    (useAI.generateFlashcards k pt (some c) st o).state.error = none ∧
    (useAI.generateQuiz k pt (some c) st o).state.error = none ∧
    (∀ e, AIService.chat (getProvider pt) k [⟨.user, flashcardPrompt c⟩] none o = .error e →
      (useAI.generateFlashcards k pt (some c) st o).result = createFallbackFlashcards) ∧
    (∀ s, AIService.chat (getProvider pt) k [⟨.user, flashcardPrompt c⟩] none o = .ok s →
      jsArrayMatch s = none →
      (useAI.generateFlashcards k pt (some c) st o).result = createFallbackFlashcards) ∧
    (∀ s sub, AIService.chat (getProvider pt) k [⟨.user, flashcardPrompt c⟩] none o = .ok s →
      jsArrayMatch s = some sub → Json.parse sub = none →
      (useAI.generateFlashcards k pt (some c) st o).result = createFallbackFlashcards) ∧
    (∀ e, AIService.chat (getProvider pt) k [⟨.user, quizPrompt c⟩] none o = .error e →
      (useAI.generateQuiz k pt (some c) st o).result = createFallbackQuiz) ∧
    (∀ s, AIService.chat (getProvider pt) k [⟨.user, quizPrompt c⟩] none o = .ok s →
      jsArrayMatch s = none →
      (useAI.generateQuiz k pt (some c) st o).result = createFallbackQuiz) ∧
    (∀ s sub, AIService.chat (getProvider pt) k [⟨.user, quizPrompt c⟩] none o = .ok s →
      jsArrayMatch s = some sub → Json.parse sub = none →
      (useAI.generateQuiz k pt (some c) st o).result = createFallbackQuiz) := by
  have hf : useAI.generateFlashcards k pt (some c) st o =
      ⟨AIService.generateFlashcards (getProvider pt) k c o, ⟨false, none⟩, true⟩ := by
    simp [useAI.generateFlashcards, jsStrTruthy, hk, hc]
  have hq : useAI.generateQuiz k pt (some c) st o =
      ⟨AIService.generateQuiz (getProvider pt) k c o, ⟨false, none⟩, true⟩ := by
    simp [useAI.generateQuiz, jsStrTruthy, hk, hc]
  refine ⟨by rw [hf], by rw [hq], ?_, ?_, ?_, ?_, ?_, ?_⟩
  · intro e he
    rw [hf]
    simp [AIService.generateFlashcards, he]
  · intro s hs hm
    rw [hf]
    simp [AIService.generateFlashcards, hs, hm]
  · intro s sub hs hm hp
    rw [hf]
    simp [AIService.generateFlashcards, hs, hm, hp]
  · intro e he
    rw [hq]
    simp [AIService.generateQuiz, he]
  · intro s hs hm
    rw [hq]
    simp [AIService.generateQuiz, hs, hm]
  · intro s sub hs hm hp
    rw [hq]
    simp [AIService.generateQuiz, hs, hm, hp]

/-- Claim C4, witness: a concrete failed quiz call leaves the error state null
and returns the fallback quiz, and a successful flashcard call whose matched
substring "[1,]" fails to parse returns the fallback deck with the error state
still null. -/
theorem claim_C4_amended_witness :
    (useAI.generateQuiz "sk-w" "openai" (some "c") ⟨false, none⟩ .networkFailure).state.error
      = none ∧
    (useAI.generateQuiz "sk-w" "openai" (some "c") ⟨false, none⟩ .networkFailure).result
      = createFallbackQuiz ∧
    (useAI.generateFlashcards "sk-w" "openai" (some "c") ⟨false, none⟩
        (.ok ⟨some "x[1,]y", none, none⟩)).result = createFallbackFlashcards ∧
    (useAI.generateFlashcards "sk-w" "openai" (some "c") ⟨false, none⟩
        (.ok ⟨some "x[1,]y", none, none⟩)).state.error = none := by
  have h := claim_C4_amended "sk-w" "openai" "c" (by decide) (by decide)
    ⟨false, none⟩ .networkFailure
  have h2 := claim_C4_amended "sk-w" "openai" "c" (by decide) (by decide)
    ⟨false, none⟩ (.ok ⟨some "x[1,]y", none, none⟩)
  exact ⟨h.2.1, h.2.2.2.2.2.1 connectionFailedError rfl,
    h2.2.2.2.2.1 "x[1,]y" "[1,]" rfl rfl rfl, h2.1⟩

/-- Claim C5, counterexample: the claim says the Anthropic profile sends no
Authorization header, but every chat request built for it carries
`Authorization: Bearer <key>` (the object spread only adds `x-api-key` and the
version header, it does not remove Authorization). -/
theorem counterexample_C5 :
    ("Authorization", "Bearer sk-test") ∈
      (AIService.chatRequest .anthropic "sk-test" [] none).1 := by
  decide

/-- Claim C5 as amended: every provider's chat request carries the credential
as an Authorization bearer token; the Anthropic profile additionally carries
`x-api-key` with the credential and the `anthropic-version` header, while the
OpenAI and Google profiles carry only Content-Type and Authorization. -/
theorem claim_C5_amended (k : String) (msgs : List ChatMessage) (ctx : Option String) :
    (∀ p, ("Authorization", "Bearer " ++ k) ∈ (AIService.chatRequest p k msgs ctx).1) ∧
    ("x-api-key", k) ∈ (AIService.chatRequest .anthropic k msgs ctx).1 ∧
    ("anthropic-version", "2023-06-01") ∈ (AIService.chatRequest .anthropic k msgs ctx).1 ∧
    (∀ h ∈ (AIService.chatRequest .openai k msgs ctx).1,
      h.1 = "Content-Type" ∨ h.1 = "Authorization") ∧
    (∀ h ∈ (AIService.chatRequest .google k msgs ctx).1,
      h.1 = "Content-Type" ∨ h.1 = "Authorization") := by
  refine ⟨?_, ?_, ?_, ?_, ?_⟩
  · intro p
    cases p <;> simp [AIService.chatRequest, chatRequestHeaders, Provider.displayName]
  · simp [AIService.chatRequest, chatRequestHeaders, Provider.displayName]
  · simp [AIService.chatRequest, chatRequestHeaders, Provider.displayName]
  · intro h hm
    simp [AIService.chatRequest, chatRequestHeaders, Provider.displayName] at hm
    rcases hm with h1 | h1 <;> simp [h1]
  · intro h hm
    simp [AIService.chatRequest, chatRequestHeaders, Provider.displayName] at hm
    rcases hm with h1 | h1 <;> simp [h1]

/-- Claim C5, witness: the Anthropic request carries `x-api-key`. -/
theorem claim_C5_amended_witness :
    ("x-api-key", "sk-w") ∈ (AIService.chatRequest .anthropic "sk-w" [] none).1 :=
  (claim_C5_amended "sk-w" [] none).2.1

/-- Claim C6: JSON extraction takes the substring from the first `[` to the
last `]` inclusive. For every response decomposed as prose with no `[`, a
bracketed segment, and trailing prose with no `]`, the greedy match returns
exactly that segment and, when it parses as a JSON array, both generation
operations return that parsed value; for every response with no bracketed
substring (no `[` strictly before a later `]`), the fixed fallback deck is
returned. -/
theorem claim_C6 (p : Provider) (k content : String) (d : ResponseData) :
    (∀ pre inner post, '[' ∉ pre → ']' ∉ post →
      (extractResponse p d).data = pre ++ ('[' :: (inner ++ (']' :: post))) →
      jsArrayMatch (extractResponse p d) = some ⟨'[' :: (inner ++ [']'])⟩ ∧
      (∀ xs, Json.parse ⟨'[' :: (inner ++ [']'])⟩ = some (Json.arr xs) →
        AIService.generateFlashcards p k content (.ok d) = xs ∧
        AIService.generateQuiz p k content (.ok d) = xs)) ∧
    ((∀ i j, i < j →
        ¬((extractResponse p d).data.get? i = some '[' ∧
          (extractResponse p d).data.get? j = some ']')) →
      AIService.generateFlashcards p k content (.ok d) = createFallbackFlashcards ∧
      AIService.generateQuiz p k content (.ok d) = createFallbackQuiz) := by
  constructor
  · intro pre inner post h1 h2 hdata
    have hm : jsArrayMatch (extractResponse p d) = some ⟨'[' :: (inner ++ [']'])⟩ := by
      unfold jsArrayMatch
      rw [hdata, jsArrayMatchL_decomp _ _ _ h1 h2]
      rfl
    refine ⟨hm, ?_⟩
    intro xs hp
    constructor
    · simp [AIService.generateFlashcards, AIService.chat, hm, hp]
    · simp [AIService.generateQuiz, AIService.chat, hm, hp]
  · intro h
    have hm : jsArrayMatch (extractResponse p d) = none := by
      unfold jsArrayMatch
      rw [jsArrayMatchL_none _ h]
      rfl
    constructor
    · simp [AIService.generateFlashcards, AIService.chat, hm]
    · simp [AIService.generateQuiz, AIService.chat, hm]

/-- Claim C6, witness: a response with prose around one bracketed array yields
exactly the parse of that array. -/
theorem claim_C6_witness :
    AIService.generateFlashcards .openai "sk-w" "c"
        (.ok ⟨some "ok [\"A\"] done", none, none⟩) = [Json.str "A"] := by
  have h := (claim_C6 .openai "sk-w" "c" ⟨some "ok [\"A\"] done", none, none⟩).1
    ['o', 'k', ' '] ['"', 'A', '"'] [' ', 'd', 'o', 'n', 'e']
    (by decide) (by decide) (by decide)
  exact (h.2 [Json.str "A"] rfl).1

/-- Claim C7: calling `useAI.generateFlashcards` twice on an unconfigured
orchestrator (empty API key) returns the identical fixed demo deck both times,
whatever the outcomes and whatever state the first call left behind. -/
theorem claim_C7 (providerType : String) (rc : Option String)
    (st : OrchestratorState) (o1 o2 : FetchOutcome) :
    (useAI.generateFlashcards "" providerType rc st o1).result = demoFlashcardsNoKey ∧
    (useAI.generateFlashcards "" providerType rc
        ((useAI.generateFlashcards "" providerType rc st o1).state) o2).result
      = demoFlashcardsNoKey := by
  constructor <;> simp [useAI.generateFlashcards]

/-- Claim C7, witness: two consecutive unconfigured calls at concrete
arguments. -/
theorem claim_C7_witness :
    (useAI.generateFlashcards "" "openai" none ⟨false, none⟩ .networkFailure).result
      = demoFlashcardsNoKey ∧
    (useAI.generateFlashcards "" "openai" none
        ((useAI.generateFlashcards "" "openai" none ⟨false, none⟩ .networkFailure).state)
        .networkFailure).result = demoFlashcardsNoKey :=
  claim_C7 "openai" none ⟨false, none⟩ .networkFailure .networkFailure

set_option maxRecDepth 4096 in
/-- Claim C8, counterexample: for the supplied grounding string `""` the system
instruction is the generic one, not the instructional template built from the
(empty) first 1000 characters — the truthiness test sends the empty string
down the generic branch. -/
theorem counterexample_C8 :
    chatSystemMessage (some "")
      = "You are an AI learning assistant. Help the user with their questions." ∧
    chatSystemMessage (some "")
      ≠ "You are an AI learning assistant. Help the user understand and learn from this content: "
        ++ jsSubstringTo "" 1000 ++ "..." := by
  constructor
  · rfl
  · decide

/-- Claim C8 as amended: for every message history, the adapter builds the
system instruction from the first 1000 characters of the grounding content
when a non-empty grounding string is supplied, and uses the generic
instruction when none or the empty string is supplied; and every system-role
message is removed from the caller-supplied history before it is forwarded in
each vendor's request body. -/
theorem claim_C8_amended (msgs : List ChatMessage) (ctx : Option String) (c : String) :
    (c ≠ "" → chatSystemMessage (some c)
      = "You are an AI learning assistant. Help the user understand and learn from this content: "
        ++ jsSubstringTo c 1000 ++ "...") ∧
    (chatSystemMessage none
      = "You are an AI learning assistant. Help the user with their questions.") ∧
    (chatSystemMessage (some "")
      = "You are an AI learning assistant. Help the user with their questions.") ∧
    (buildRequestBody .openai msgs (chatSystemMessage ctx)
      = .openaiBody "gpt-3.5-turbo"
          (⟨"system", chatSystemMessage ctx⟩ ::
            (msgs.filter (fun m => decide (m.role ≠ Role.system))).map
              (fun m => ⟨roleString m.role, m.content⟩))
          1000 (7 / 10)) ∧
    (buildRequestBody .anthropic msgs (chatSystemMessage ctx)
      = .anthropicBody "claude-3-sonnet-20240229" 1000 (chatSystemMessage ctx)
          ((msgs.filter (fun m => decide (m.role ≠ Role.system))).map
            (fun m => ⟨if m.role = Role.assistant then "assistant" else "user", m.content⟩))) ∧
    (buildRequestBody .google msgs (chatSystemMessage ctx)
      = .googleBody
          (⟨[chatSystemMessage ctx], none⟩ ::
            (msgs.filter (fun m => decide (m.role ≠ Role.system))).map
              (fun m =>
                ⟨[m.content], some (if m.role = Role.assistant then "model" else "user")⟩))
          1000 (7 / 10)) ∧
    (∀ m ∈ msgs.filter (fun m => decide (m.role ≠ Role.system)), m.role ≠ Role.system) := by
  refine ⟨?_, rfl, rfl, rfl, rfl, rfl, ?_⟩
  · intro hc
    simp [chatSystemMessage, jsStrTruthy, hc]
  · intro m hm
    rw [List.mem_filter] at hm
    simpa using hm.2

/-- Claim C8, witness: a non-empty grounding string produces the instructional
template. -/
theorem claim_C8_amended_witness :
    chatSystemMessage (some "abc")
      = "You are an AI learning assistant. Help the user understand and learn from this content: "
        ++ jsSubstringTo "abc" 1000 ++ "..." :=
  (claim_C8_amended [] none "abc").1 (by decide)

/-- Claim C9: when the orchestrator is configured (non-empty API key) but the
source content is the empty string, `generateSummary`, `generateFlashcards`,
and `generateQuiz` each return their fixed demo artifact immediately without
making any provider call, exactly as when the content is absent. -/
theorem claim_C9 (k providerType : String) (hk : k ≠ "") (st : OrchestratorState)
    (o : FetchOutcome) :
    (useAI.generateSummary k providerType (some "") st o).result = .ok demoSummaryText ∧
    (useAI.generateSummary k providerType (some "") st o).called = false ∧
    useAI.generateSummary k providerType (some "") st o
      = useAI.generateSummary k providerType none st o ∧
    (useAI.generateFlashcards k providerType (some "") st o).result = demoFlashcardsNoContent ∧
    (useAI.generateFlashcards k providerType (some "") st o).called = false ∧
    useAI.generateFlashcards k providerType (some "") st o
      = useAI.generateFlashcards k providerType none st o ∧
    (useAI.generateQuiz k providerType (some "") st o).result = demoQuizNoContent ∧
    (useAI.generateQuiz k providerType (some "") st o).called = false ∧
    useAI.generateQuiz k providerType (some "") st o
      = useAI.generateQuiz k providerType none st o := by
  refine ⟨?_, ?_, ?_, ?_, ?_, ?_, ?_, ?_, ?_⟩ <;>
    simp [useAI.generateSummary, useAI.generateFlashcards, useAI.generateQuiz,
      jsStrTruthy, hk]

/-- Claim C9, witness: a configured call with empty content returns the demo
deck. -/
theorem claim_C9_witness :
    (useAI.generateFlashcards "sk-w" "openai" (some "") ⟨false, none⟩ .networkFailure).result
      = demoFlashcardsNoContent :=
  (claim_C9 "sk-w" "openai" (by decide) ⟨false, none⟩ .networkFailure).2.2.2.1

/-- Claim C10: on a successful (2xx) provider response, `extractResponse`
returns the literal "No response received" both when the vendor response-text
field is absent and when it is present but equal to the empty string; the
extracted text is never empty, so a successful `chat` never returns the empty
string. -/
theorem claim_C10 (p : Provider) (d : ResponseData) (apiKey : String)
    (messages : List ChatMessage) (ctx : Option String) :
    (responseTextField p d = none ∨ responseTextField p d = some "" →
      extractResponse p d = "No response received") ∧
    extractResponse p d ≠ "" ∧
    AIService.chat p apiKey messages ctx (.ok d) = .ok (extractResponse p d) ∧
    AIService.chat p apiKey messages ctx (.ok d) ≠ .ok "" := by
  have hext : extractResponse p d ≠ "" := by
    unfold extractResponse jsOrStr
    cases h : responseTextField p d with
    | none => decide
    | some s =>
      by_cases hs : s = ""
      · simp [hs]
      · simp [hs]
  refine ⟨?_, hext, rfl, ?_⟩
  · rintro (h | h) <;> simp [extractResponse, h, jsOrStr]
  · intro hc
    rw [show AIService.chat p apiKey messages ctx (.ok d) = .ok (extractResponse p d)
      from rfl] at hc
    exact hext (by injection hc)

/-- Claim C10, witness: an empty-string text field and an absent field both
yield the literal fallback text. -/
theorem claim_C10_witness :
    extractResponse .openai ⟨some "", none, none⟩ = "No response received" ∧
    extractResponse .anthropic ⟨none, none, none⟩ = "No response received" := by
  refine ⟨?_, ?_⟩
  · exact (claim_C10 .openai ⟨some "", none, none⟩ "" [] none).1 (Or.inr rfl)
  · exact (claim_C10 .anthropic ⟨none, none, none⟩ "" [] none).1 (Or.inl rfl)
